import Mathlib

/-!
Verification of the two-stage infrastructure deployment declared in this
repository: a network-provisioning stack (`ExpenseTrackerServicesDeployStack`
in `lib/infra-stack.ts`) that builds a VPC with public/private subnets, an
internet gateway, NAT gateways and default routes, and publishes identifiers
to a key-value registry (SSM Parameter Store); and a workload-provisioning
stack (`ExpenseTrackerServices`) that resolves identifiers from that registry
and declares a security group, three Fargate services, a network load
balancer with two listeners, and one published parameter.

The embedding models each stack as a pure function from its declared
configuration to a resource graph (plus published registry values), as the
stacks are pure declarations.  Cloud-provider resource ids that are unknown
at synthesis time (subnet ids, the VPC id, the load balancer DNS name) are
represented by deterministic symbolic strings; all structure that the stack
code itself determines (counts, placements, route targets, ports, environment
variables, parameter names) is taken verbatim from the source.
-/

/-- An IPv4 CIDR block: a base address and a prefix length. -/
structure Cidr where
  base : Nat
  prefixLen : Nat
deriving DecidableEq, Inhabited

/-- Number of addresses covered by the block. -/
def Cidr.blockSize (c : Cidr) : Nat := 2 ^ (32 - c.prefixLen)

/-- Whether an IPv4 address (as a number below 2^32) falls inside the block. -/
def Cidr.containsIp (c : Cidr) (ip : Nat) : Bool :=
  decide (ip < 2 ^ 32) && (ip / c.blockSize == c.base / c.blockSize)

/-- The VPC address block declared in `infra-stack.ts`: `10.0.0.0/16`. -/
def vpcCidrBlock : Cidr := { base := 10 * 2 ^ 24, prefixLen := 16 }

/-- The `k`-th /24 block carved out of a parent block, in the order the Vpc
construct assigns blocks to subnets (`cidrMask: 24` in both subnet
configurations). -/
def carveSubnetCidr (c : Cidr) (k : Nat) : Cidr :=
  { base := c.base + k * 2 ^ (32 - 24), prefixLen := 24 }

/-- A subnet as declared by the Vpc construct's `subnetConfiguration`. -/
structure SubnetSpec where
  name : String
  az : Nat
  isPublic : Bool
  cidr : Cidr
  subnetId : String
  routeTableId : String
deriving DecidableEq, Inhabited

/-- The target of a route: either a NAT gateway (`natGatewayId` in a
`CfnRoute`) or the internet gateway (`gatewayId`). -/
inductive RouteTarget where
  | natGateway (natId : String)
  | internetGateway (igwId : String)
deriving DecidableEq, Inhabited

/-- A `CfnRoute` declaration. -/
structure RouteSpec where
  routeTableId : String
  destinationCidrBlock : String
  target : RouteTarget
deriving DecidableEq, Inhabited

/-- A `CfnNatGateway` declaration: the gateway id and the subnet it is
placed in. -/
structure NatGatewaySpec where
  natId : String
  subnetId : String
deriving DecidableEq, Inhabited

/-- An SSM `StringParameter` declaration: one published registry entry. -/
structure ParamExport where
  parameterName : String
  stringValue : String
deriving DecidableEq, Inhabited

/-- The resource graph produced by the network stack. -/
structure NetworkGraph where
  vpcId : String
  vpcCidr : Cidr
  subnets : List SubnetSpec
  internetGateways : List String
  natGateways : List NatGatewaySpec
  routes : List RouteSpec
  ssmParameters : List ParamExport
deriving DecidableEq, Inhabited

/-- The public subnet of availability zone `i`, carved from block `c`
(`name: 'public-subnet'`, `subnetType: PUBLIC`, `cidrMask: 24`). -/
def mkPublicSubnet (c : Cidr) (i : Nat) : SubnetSpec :=
  { name := "public-subnet"
    az := i
    isPublic := true
    cidr := carveSubnetCidr c i
    subnetId := "public-subnet-id-" ++ toString i
    routeTableId := "rtb-public-" ++ toString i }

/-- The private subnet of availability zone `i`
(`name: 'private-subnet'`, `subnetType: PRIVATE_WITH_EGRESS`,
`cidrMask: 24`); the Vpc construct assigns its block after the `maxAzs`
public blocks. -/
def mkPrivateSubnet (c : Cidr) (maxAzs i : Nat) : SubnetSpec :=
  { name := "private-subnet"
    az := i
    isPublic := false
    cidr := carveSubnetCidr c (maxAzs + i)
    subnetId := "private-subnet-id-" ++ toString i
    routeTableId := "rtb-private-" ++ toString i }

/-- The network stack (`ExpenseTrackerServicesDeployStack`), parameterised by
the requested availability-zone count (the `maxAzs` setting, which the source
fixes to `2`) and the VPC CIDR block (which the source fixes to
`10.0.0.0/16`).  Everything else follows the source literally: two subnet
groups of mask /24, an explicit internet gateway, exactly two explicit
`CfnNatGateway` declarations placed in `vpc.publicSubnets[0]` and
`vpc.publicSubnets[1]`, one default route per private subnet targeting NAT
gateway one for index 0 and NAT gateway two otherwise, one default route per
public subnet targeting the internet gateway, and one published parameter for
the VPC id and for each subnet id.  Construction fails when the CIDR cannot
be subdivided into `2 * maxAzs` /24 blocks (Vpc construct validation), or
when `vpc.publicSubnets[1]` does not exist (fewer than two availability
zones), as `vpc.publicSubnets[1].subnetId` then throws. -/
def networkStack (maxAzs : Nat) (cidr : Cidr) : Except String NetworkGraph :=
  if ¬ (cidr.prefixLen ≤ 24 ∧ 2 * maxAzs ≤ 2 ^ (24 - cidr.prefixLen)) then
    Except.error "CIDR block cannot be subdivided into the requested subnets"
  else
    let publicSubnets := (List.range maxAzs).map (mkPublicSubnet cidr)
    let privateSubnets := (List.range maxAzs).map (mkPrivateSubnet cidr maxAzs)
    match publicSubnets.get? 0, publicSubnets.get? 1 with
    | some pub0, some pub1 =>
      let natGatewayOne : NatGatewaySpec :=
        { natId := "NatGatewayOne", subnetId := pub0.subnetId }
      let natGatewayTwo : NatGatewaySpec :=
        { natId := "NatGatewayTwo", subnetId := pub1.subnetId }
      let privateRoutes := (List.range maxAzs).map (fun index =>
        { routeTableId := (mkPrivateSubnet cidr maxAzs index).routeTableId
          destinationCidrBlock := "0.0.0.0/0"
          target := RouteTarget.natGateway
            (if index == 0 then natGatewayOne.natId else natGatewayTwo.natId)
          : RouteSpec })
      let publicRoutes := (List.range maxAzs).map (fun index =>
        { routeTableId := (mkPublicSubnet cidr index).routeTableId
          destinationCidrBlock := "0.0.0.0/0"
          target := RouteTarget.internetGateway "InternetGateway"
          : RouteSpec })
      Except.ok
        { vpcId := "vpc-expenseTracker"
          vpcCidr := cidr
          subnets := publicSubnets ++ privateSubnets
          internetGateways := ["InternetGateway"]
          natGateways := [natGatewayOne, natGatewayTwo]
          routes := privateRoutes ++ publicRoutes
          ssmParameters :=
            { parameterName := "VpcId", stringValue := "vpc-expenseTracker" }
              :: (List.range maxAzs).map (fun index =>
                   { parameterName := "PublicSubnet-" ++ toString index
                     stringValue := (mkPublicSubnet cidr index).subnetId
                     : ParamExport })
              ++ (List.range maxAzs).map (fun index =>
                   { parameterName := "PrivateSubnet-" ++ toString index
                     stringValue := (mkPrivateSubnet cidr maxAzs index).subnetId
                     : ParamExport }) }
    | _, _ => Except.error "vpc.publicSubnets index out of range"

/-- The network graph the stack actually deploys: `maxAzs = 2`,
CIDR `10.0.0.0/16`, exactly as the source configures it. -/
def netGraph2 : NetworkGraph :=
  match networkStack 2 vpcCidrBlock with
  | Except.ok g => g
  | Except.error _ => default

/-- The shared key-value registry (SSM Parameter Store), as the association
list of published (parameter name, value) pairs. -/
abbrev Registry := List (String × String)

/-- The registry contents after the network stack has run: its published
parameters, in order. -/
def registry2 : Registry :=
  netGraph2.ssmParameters.map (fun p => (p.parameterName, p.stringValue))

/-- An ingress rule of a security group (`addIngressRule`): a source peer
CIDR, an IP protocol, and a single TCP port (`Port.tcp`). -/
structure IngressRule where
  sourceCidr : Cidr
  protocol : String
  port : Nat
  description : String
deriving DecidableEq, Inhabited

/-- A security group: its ingress rules and the `allowAllOutbound` flag.
Inbound traffic not matched by any ingress rule is denied (the cloud
provider's security-group default). -/
structure SecurityGroupSpec where
  allowAllOutbound : Bool
  ingressRules : List IngressRule
deriving DecidableEq, Inhabited

/-- A container declaration inside a task definition (`addContainer`):
image, environment variables in declaration order, and container ports. -/
structure ContainerSpec where
  name : String
  image : String
  environment : List (String × String)
  portMappings : List Nat
deriving DecidableEq, Inhabited

/-- A Fargate task definition: optional resource limits and its containers. -/
structure TaskDefSpec where
  memoryLimitMiB : Option Nat
  cpu : Option Nat
  containers : List ContainerSpec
deriving DecidableEq, Inhabited

/-- A Fargate service: its task definition, desired replica count, subnet
placement, security groups and optional Cloud Map discovery name. -/
structure ServiceSpec where
  name : String
  taskDefinition : TaskDefSpec
  desiredCount : Nat
  subnetIds : List String
  cloudMapName : Option String
deriving DecidableEq, Inhabited

/-- A network target group: the port/protocol it forwards to and the
services registered as targets (`addTarget`). -/
structure TargetGroupSpec where
  name : String
  port : Nat
  protocol : String
  targets : List String
deriving DecidableEq, Inhabited

/-- A load-balancer listener (`addListener`): its port/protocol and default
target groups. -/
structure ListenerSpec where
  port : Nat
  protocol : String
  defaultTargetGroups : List String
deriving DecidableEq, Inhabited

/-- The resource graph produced by the workload stack. -/
structure ServicesGraph where
  securityGroup : SecurityGroupSpec
  clusterNamespace : String
  nlbDnsName : String
  nlbSubnetIds : List String
  services : List ServiceSpec
  targetGroups : List TargetGroupSpec
  listeners : List ListenerSpec
  ssmParameters : List ParamExport
deriving DecidableEq, Inhabited

/-- `StringParameter.valueFromLookup`: a blocking registry look-up that
fails (the deployment cannot proceed) when the key is absent. -/
def valueFromLookup (reg : Registry) (key : String) : Except String String :=
  match reg.lookup key with
  | some v => Except.ok v
  | none => Except.error ("registry key not found: " ++ key)

/-- `Vpc.fromLookup`: imports the deployed VPC by id, recovering its CIDR
block; fails when no VPC with that id exists in the environment. -/
def vpcFromLookup (env : NetworkGraph) (vpcId : String) :
    Except String Cidr :=
  if env.vpcId == vpcId then Except.ok env.vpcCidr
  else Except.error ("could not find VPC with id " ++ vpcId)

/-- The symbolic DNS name the provider assigns to the network load balancer
(`nlb.loadBalancerDnsName`, a deploy-time token). -/
def nlbDns : String := "DatabaseNLB.elb.internal"

/-- The workload stack (`ExpenseTrackerServices`), as a function of the
deployed network environment and the registry contents.  It performs the
source's three `valueFromLookup` calls (the VPC id and the two private
subnet ids), imports the VPC, and then declares: the `dbSecurityGroup` with
its three ingress rules scoped to `vpc.vpcCidrBlock`, the ECS cluster with
Cloud Map namespace `local`, the internal network load balancer placed in
the two private subnets, the three task definitions with their container
environments, the three Fargate services (desired counts 1, 3, 3, all placed
in the two private subnets), the two target groups and two listeners
(ports 3306 and 9092), and the one published parameter
`ExpenseTrackerServicesNLB` holding the load balancer's DNS name. -/
def workloadStack (env : NetworkGraph) (reg : Registry) :
    Except String ServicesGraph := do
  let vpcId ← valueFromLookup reg "VpcId"
  let vpcCidr ← vpcFromLookup env vpcId
  let privateSubnet1 ← valueFromLookup reg "PrivateSubnet-0"
  let privateSubnet2 ← valueFromLookup reg "PrivateSubnet-1"
  let dbSecurityGroup : SecurityGroupSpec :=
    { allowAllOutbound := true
      ingressRules :=
        [ { sourceCidr := vpcCidr, protocol := "tcp", port := 3306
            description := "Allow MySQL traffic" },
          { sourceCidr := vpcCidr, protocol := "tcp", port := 9092
            description := "Allow Kafka traffic" },
          { sourceCidr := vpcCidr, protocol := "tcp", port := 2181
            description := "Allow Kafka to access Zookeeper" } ] }
  let mysqlTaskDefination : TaskDefSpec :=
    { memoryLimitMiB := none
      cpu := none
      containers :=
        [ { name := "MySQLContainer"
            image := "mysql:8.3.0"
            environment :=
              [ ("MYSQL_ROOT_PASSWORD", "12345"),
                ("MYSQL_USER", "user"),
                ("MYSQL_PASSWORD", "12345"),
                ("MYSQL_ROOT_USER", "root") ]
            portMappings := [3306] } ] }
  let zookeeperTaskDefination : TaskDefSpec :=
    { memoryLimitMiB := some 512
      cpu := some 256
      containers :=
        [ { name := "ZookeeperContainer"
            image := "confluentinc/cp-zookeeper:7.4.4"
            environment :=
              [ ("ZOOKEEPER_CLIENT_PORT", "2181"),
                ("ZOOKEEPER_TICK_TIME", "2000") ]
            portMappings := [2181] } ] }
  let kafkaTaskDefination : TaskDefSpec :=
    { memoryLimitMiB := some 1024
      cpu := some 512
      containers :=
        [ { name := "KafkaContainer"
            image := "confluentinc/cp-kafka:7.4.4"
            environment :=
              [ ("KAFKA_BROKER_ID", "1"),
                ("KAFKA_ZOOKEEPER_CONNECT", "zookeeper-service.local:2181"),
                ("KAFKA_ADVERTISED_LISTENERS",
                  "PLAINTEXT://" ++ nlbDns ++ ":9092"),
                ("KAFKA_LISTENERS", "PLAINTEXT://:9092"),
                ("KAFKA_LISTENER_SECURITY_PROTOCOL_MAP", "PLAINTEXT:PLAINTEXT"),
                ("KAFKA_INTER_BROKER_LISTENER_NAME", "PLAINTEXT"),
                ("KAFKA_OFFSETS_TOPIC_REPLICATION_FACTOR", "1"),
                ("KAFKA_AUTO_CREATE_TOPICS_ENABLE", "true"),
                ("KAFKA_NUM_PARTITIONS", "3"),
                ("KAFKA_DEFAULT_REPLICATION_FACTOR", "1"),
                ("KAFKA_MIN_INSYNC_REPLICAS", "1"),
                ("KAFKA_UNCLEAN_LEADER_ELECTION_ENABLE", "false"),
                ("KAFKA_BROKER_RACK", "RACK1") ]
            portMappings := [9092] } ] }
  let mysqlService : ServiceSpec :=
    { name := "MySQLService"
      taskDefinition := mysqlTaskDefination
      desiredCount := 1
      subnetIds := [privateSubnet1, privateSubnet2]
      cloudMapName := none }
  let zookeeperService : ServiceSpec :=
    { name := "ZookeeperService"
      taskDefinition := zookeeperTaskDefination
      desiredCount := 3
      subnetIds := [privateSubnet1, privateSubnet2]
      cloudMapName := some "zookeeper-service" }
  let kafkaService : ServiceSpec :=
    { name := "KafkaService"
      taskDefinition := kafkaTaskDefination
      desiredCount := 3
      subnetIds := [privateSubnet1, privateSubnet2]
      cloudMapName := some "kafka-service" }
  let mysqlTargetGroup : TargetGroupSpec :=
    { name := "MySQLTargetGroup", port := 3306, protocol := "TCP"
      targets := [mysqlService.name] }
  let kafkaTargetGroup : TargetGroupSpec :=
    { name := "KafkaTargetGroup", port := 9092, protocol := "TCP"
      targets := [kafkaService.name] }
  Except.ok
    { securityGroup := dbSecurityGroup
      clusterNamespace := "local"
      nlbDnsName := nlbDns
      nlbSubnetIds := [privateSubnet1, privateSubnet2]
      services := [mysqlService, zookeeperService, kafkaService]
      targetGroups := [mysqlTargetGroup, kafkaTargetGroup]
      listeners :=
        [ { port := 3306, protocol := "TCP"
            defaultTargetGroups := [mysqlTargetGroup.name] },
          { port := 9092, protocol := "TCP"
            defaultTargetGroups := [kafkaTargetGroup.name] } ]
      ssmParameters :=
        [ { parameterName := "ExpenseTrackerServicesNLB"
            stringValue := nlbDns } ] }

/-- The services graph the workload stack deploys on top of the network
stack's registry. -/
def svcGraph2 : ServicesGraph :=
  match workloadStack netGraph2 registry2 with
  | Except.ok w => w
  | Except.error _ => default

/-- Whether the security group admits an inbound packet with the given IP
protocol, destination port, and source address: some ingress rule must match
all three.  Traffic matching no rule is denied. -/
def inboundAllowed (sg : SecurityGroupSpec) (protocol : String) (port : Nat)
    (srcIp : Nat) : Bool :=
  sg.ingressRules.any (fun r =>
    r.protocol == protocol && r.port == port && r.sourceCidr.containsIp srcIp)

/-- The environment seen by replica `i` of a Fargate service.  Every replica
is launched from the service's single task definition, so the environment —
the concatenated environment lists of the task definition's containers — does
not depend on the replica index. -/
def replicaEnvironment (svc : ServiceSpec) (_i : Nat) :
    List (String × String) :=
  (svc.taskDefinition.containers.map ContainerSpec.environment).flatten

/-- The registry with the two public-subnet entries removed: exactly the
entries the workload stack actually reads, in publication order. -/
def regPrivOnly : Registry :=
  registry2.filter (fun kv =>
    kv.fst != "PublicSubnet-0" && kv.fst != "PublicSubnet-1")

/-- The registry with the first private-subnet entry removed. -/
def regMissingPriv : Registry :=
  registry2.filter (fun kv => kv.fst != "PrivateSubnet-0")

/-- `netGraph2` is exactly what the network stack produces on its hard-coded
configuration. -/
theorem networkStack_produces_netGraph2 :
    networkStack 2 vpcCidrBlock = Except.ok netGraph2 := rfl

/-- `svcGraph2` is exactly what the workload stack produces on the network
stack's published registry. -/
theorem workloadStack_produces_svcGraph2 :
    workloadStack netGraph2 registry2 = Except.ok svcGraph2 := rfl

theorem except_bind_ok {α β ε : Type} (a : α) (f : α → Except ε β) :
    (Except.ok a >>= f : Except ε β) = f a := rfl

theorem except_bind_error {α β ε : Type} (e : ε) (f : α → Except ε β) :
    (Except.error e >>= f : Except ε β) = Except.error e := rfl

/-- If the workload stack succeeds, then each of the three registry keys it
reads was present. -/
theorem workloadStack_ok_lookups {env : NetworkGraph} {reg : Registry}
    {w : ServicesGraph} (h : workloadStack env reg = Except.ok w) :
    (reg.lookup "VpcId").isSome = true ∧
    (reg.lookup "PrivateSubnet-0").isSome = true ∧
    (reg.lookup "PrivateSubnet-1").isSome = true := by
  unfold workloadStack valueFromLookup vpcFromLookup at h
  cases h0 : reg.lookup "VpcId" with
  | none =>
    rw [h0, except_bind_error] at h
    cases h
  | some v =>
    rw [h0, except_bind_ok] at h
    by_cases hb : (env.vpcId == v) = true
    · rw [if_pos hb, except_bind_ok] at h
      cases h1 : reg.lookup "PrivateSubnet-0" with
      | none =>
        rw [h1, except_bind_error] at h
        cases h
      | some v1 =>
        rw [h1, except_bind_ok] at h
        cases h2 : reg.lookup "PrivateSubnet-1" with
        | none =>
          rw [h2, except_bind_error] at h
          cases h
        | some v2 =>
          exact ⟨by simp [h0], by simp [h1], by simp [h2]⟩
    · rw [if_neg hb, except_bind_error] at h
      cases h

/-- Claim C1 counterexample: the claim quantifies over every requested
availability-zone count A ≥ 1, but at A = 1 the network stack does not
produce any network at all — the construction aborts, because it
unconditionally reads `vpc.publicSubnets[1]`, which does not exist with a
single availability zone.  Hence there is no produced graph with 2·1 subnets,
one internet gateway, and 1 NAT gateway placed in its zone's public subnet. -/
theorem networkStack_claim_false_for_single_zone :
    ¬ ∃ g, networkStack 1 vpcCidrBlock = Except.ok g ∧
      g.subnets.length = 2 * 1 ∧
      g.internetGateways.length = 1 ∧
      g.natGateways.length = 1 ∧
      g.natGateways.map NatGatewaySpec.subnetId =
        (g.subnets.filter (fun s => s.isPublic)).map SubnetSpec.subnetId := by
  rintro ⟨g, hg, -⟩
  rw [show networkStack 1 vpcCidrBlock =
      Except.error "vpc.publicSubnets index out of range" from rfl] at hg
  cases hg

/-- Claim C1 (amended): for the availability-zone count the stack is
hard-coded to, A = 2, with the given CIDR block, the network stack produces
exactly 2·A = 4 subnets (one public and one private per zone), one internet
gateway, and exactly A = 2 NAT gateways, the k-th NAT gateway placed in zone
k's public subnet; the construction is fixed at two NAT gateways and fails
outright for A = 1. -/
theorem networkStack_two_zone_contract :
    ∃ g, networkStack 2 vpcCidrBlock = Except.ok g ∧
      g.subnets.length = 2 * 2 ∧
      (g.subnets.filter (fun s => s.isPublic)).length = 2 ∧
      (g.subnets.filter (fun s => !s.isPublic)).length = 2 ∧
      (List.range 2).all (fun z =>
        ((g.subnets.filter (fun s => s.isPublic && s.az == z)).length == 1) &&
        ((g.subnets.filter (fun s => !s.isPublic && s.az == z)).length == 1))
        = true ∧
      g.internetGateways.length = 1 ∧
      g.natGateways.length = 2 ∧
      g.natGateways.map NatGatewaySpec.subnetId =
        (g.subnets.filter (fun s => s.isPublic)).map SubnetSpec.subnetId :=
  ⟨netGraph2, rfl, by decide, by decide, by decide, by decide, by decide,
    by decide, by decide⟩

/-- Claim C2: with A = 2 and CIDR 10.0.0.0/16 the network stack yields four
subnets, all at /24 granularity, 2 public and 2 private, 2 NAT gateways,
1 internet gateway, and publishes exactly 5 registry entries: the network id
under `VpcId` followed by the four subnet ids under their index-qualified
names, in subnet order. -/
theorem networkStack_end_to_end_two_zones :
    netGraph2.subnets.length = 4 ∧
    (netGraph2.subnets.filter (fun s => s.isPublic)).length = 2 ∧
    (netGraph2.subnets.filter (fun s => !s.isPublic)).length = 2 ∧
    netGraph2.subnets.all (fun s => s.cidr.prefixLen == 24) = true ∧
    netGraph2.natGateways.length = 2 ∧
    netGraph2.internetGateways.length = 1 ∧
    netGraph2.ssmParameters.length = 5 ∧
    netGraph2.ssmParameters.map ParamExport.parameterName =
      ["VpcId", "PublicSubnet-0", "PublicSubnet-1",
       "PrivateSubnet-0", "PrivateSubnet-1"] ∧
    netGraph2.ssmParameters.map ParamExport.stringValue =
      netGraph2.vpcId :: netGraph2.subnets.map SubnetSpec.subnetId := by
  decide

/-- Claim C3: in the produced network, every route (all of which are default
routes, destination 0.0.0.0/0) attached to a private subnet's route table
targets a NAT gateway that sits in a public subnet of the same availability
zone, and every route attached to a public subnet's route table targets the
internet gateway. -/
theorem default_routes_target_zone_gateways :
    ∀ r ∈ netGraph2.routes, ∀ s ∈ netGraph2.subnets,
      s.routeTableId = r.routeTableId →
      r.destinationCidrBlock = "0.0.0.0/0" ∧
      (s.isPublic = true →
        ∃ igw ∈ netGraph2.internetGateways,
          r.target = RouteTarget.internetGateway igw) ∧
      (s.isPublic = false →
        ∃ n ∈ netGraph2.natGateways,
          r.target = RouteTarget.natGateway n.natId ∧
          ∃ p ∈ netGraph2.subnets, p.isPublic = true ∧
            p.subnetId = n.subnetId ∧ p.az = s.az) := by
  decide

/-- Claim C3 witness: the first route (the default route of private subnet 0)
together with private subnet 0 satisfies the route invariant. -/
theorem default_routes_target_zone_gateways_witness :
    (netGraph2.routes.get ⟨0, by decide⟩) ∈ netGraph2.routes ∧
    (netGraph2.subnets.get ⟨2, by decide⟩) ∈ netGraph2.subnets ∧
    (netGraph2.subnets.get ⟨2, by decide⟩).routeTableId =
      (netGraph2.routes.get ⟨0, by decide⟩).routeTableId ∧
    ((netGraph2.routes.get ⟨0, by decide⟩).destinationCidrBlock = "0.0.0.0/0" ∧
     ((netGraph2.subnets.get ⟨2, by decide⟩).isPublic = true →
       ∃ igw ∈ netGraph2.internetGateways,
         (netGraph2.routes.get ⟨0, by decide⟩).target =
           RouteTarget.internetGateway igw) ∧
     ((netGraph2.subnets.get ⟨2, by decide⟩).isPublic = false →
       ∃ n ∈ netGraph2.natGateways,
         (netGraph2.routes.get ⟨0, by decide⟩).target =
           RouteTarget.natGateway n.natId ∧
         ∃ p ∈ netGraph2.subnets, p.isPublic = true ∧
           p.subnetId = n.subnetId ∧
           p.az = (netGraph2.subnets.get ⟨2, by decide⟩).az)) :=
  ⟨by decide, by decide, by decide,
    default_routes_target_zone_gateways
      (netGraph2.routes.get ⟨0, by decide⟩) (by decide)
      (netGraph2.subnets.get ⟨2, by decide⟩) (by decide) (by decide)⟩

/-- Claim C5: the workload stack provisions exactly three workloads — the
database service with desired count 1, the coordination service with desired
count 3 and the broker service with desired count 3 — and exactly two
load-balancer listeners, on ports 3306 and 9092, each bound to exactly one
target group, with no listener on the coordination-service port 2181. -/
theorem workload_counts_and_listeners :
    svcGraph2.services.map (fun s => (s.name, s.desiredCount)) =
      [("MySQLService", 1), ("ZookeeperService", 3), ("KafkaService", 3)] ∧
    svcGraph2.listeners.map ListenerSpec.port = [3306, 9092] ∧
    svcGraph2.listeners.all
      (fun l => l.defaultTargetGroups.length == 1) = true ∧
    svcGraph2.listeners.all (fun l => l.port != 2181) = true ∧
    svcGraph2.targetGroups.map (fun tg => (tg.name, tg.port, tg.targets)) =
      [("MySQLTargetGroup", 3306, ["MySQLService"]),
       ("KafkaTargetGroup", 9092, ["KafkaService"])] := by
  decide

/-- Claim C4: the security group allows all outbound traffic, and admits an
inbound packet exactly when it is TCP, its destination port is 3306, 9092 or
2181, and its source address lies inside the network's own address range
(the VPC CIDR block); everything else is denied by the security-group
default. -/
theorem security_boundary_inbound_policy :
    svcGraph2.securityGroup.allowAllOutbound = true ∧
    ∀ (protocol : String) (port srcIp : Nat),
      (inboundAllowed svcGraph2.securityGroup protocol port srcIp = true ↔
        (protocol = "tcp" ∧ (port = 3306 ∨ port = 9092 ∨ port = 2181) ∧
         netGraph2.vpcCidr.containsIp srcIp = true)) := by
  refine ⟨rfl, fun protocol port srcIp => ?_⟩
  have hsg : svcGraph2.securityGroup.ingressRules =
      [ { sourceCidr := netGraph2.vpcCidr, protocol := "tcp", port := 3306,
          description := "Allow MySQL traffic" },
        { sourceCidr := netGraph2.vpcCidr, protocol := "tcp", port := 9092,
          description := "Allow Kafka traffic" },
        { sourceCidr := netGraph2.vpcCidr, protocol := "tcp", port := 2181,
          description := "Allow Kafka to access Zookeeper" } ] := rfl
  unfold inboundAllowed
  rw [hsg]
  simp only [List.any_cons, List.any_nil, Bool.or_eq_true, Bool.and_eq_true,
    beq_iff_eq, Bool.false_eq_true, or_false]
  constructor
  · rintro (⟨⟨hp, hq⟩, hc⟩ | ⟨⟨hp, hq⟩, hc⟩ | ⟨⟨hp, hq⟩, hc⟩)
    · exact ⟨hp.symm, Or.inl hq.symm, hc⟩
    · exact ⟨hp.symm, Or.inr (Or.inl hq.symm), hc⟩
    · exact ⟨hp.symm, Or.inr (Or.inr hq.symm), hc⟩
  · rintro ⟨hp, hq | hq | hq, hc⟩
    · exact Or.inl ⟨⟨hp.symm, hq.symm⟩, hc⟩
    · exact Or.inr (Or.inl ⟨⟨hp.symm, hq.symm⟩, hc⟩)
    · exact Or.inr (Or.inr ⟨⟨hp.symm, hq.symm⟩, hc⟩)

/-- Claim C6 counterexample: the network stack publishes five registry
entries, among them `PublicSubnet-0` and `PublicSubnet-1`, but the workload
stack performs no look-up for those keys: with both public-subnet entries
removed from the registry the workload stack still succeeds, producing the
same services graph.  So it does not perform one blocking look-up per
published pair, and it does not resolve all four subnet ids. -/
theorem public_subnet_ids_not_resolved :
    "PublicSubnet-0" ∈ netGraph2.ssmParameters.map ParamExport.parameterName ∧
    "PublicSubnet-1" ∈ netGraph2.ssmParameters.map ParamExport.parameterName ∧
    regPrivOnly.lookup "PublicSubnet-0" = none ∧
    regPrivOnly.lookup "PublicSubnet-1" = none ∧
    workloadStack netGraph2 regPrivOnly = Except.ok svcGraph2 :=
  ⟨by decide, by decide, by decide, by decide, rfl⟩

/-- Claim C6 (amended): the workload stack performs a blocking registry
look-up for exactly three of the five published pairs — the network id
(`VpcId`) and the two private-subnet ids — before provisioning: those three
entries alone suffice for it to succeed, and removing any one of them makes
it fail; the two public-subnet ids are published but never resolved. -/
theorem workload_performs_three_lookups :
    regPrivOnly.map Prod.fst =
      ["VpcId", "PrivateSubnet-0", "PrivateSubnet-1"] ∧
    workloadStack netGraph2 regPrivOnly = Except.ok svcGraph2 ∧
    workloadStack netGraph2
        (regPrivOnly.filter (fun kv => kv.fst != "VpcId")) =
      Except.error "registry key not found: VpcId" ∧
    workloadStack netGraph2
        (regPrivOnly.filter (fun kv => kv.fst != "PrivateSubnet-0")) =
      Except.error "registry key not found: PrivateSubnet-0" ∧
    workloadStack netGraph2
        (regPrivOnly.filter (fun kv => kv.fst != "PrivateSubnet-1")) =
      Except.error "registry key not found: PrivateSubnet-1" :=
  ⟨by decide, rfl, rfl, rfl, rfl⟩

/-- Claim C7: if any registry key the workload stack expects (`VpcId`,
`PrivateSubnet-0` or `PrivateSubnet-1`) is absent from the registry, the
stack's construction fails with an error — it produces no services graph,
so no resources are declared. -/
theorem workload_fails_on_missing_key :
    ∀ (reg : Registry),
      ∀ k ∈ (["VpcId", "PrivateSubnet-0", "PrivateSubnet-1"] : List String),
        reg.lookup k = none →
        ∃ e, workloadStack netGraph2 reg = Except.error e := by
  intro reg k hk hnone
  cases hres : workloadStack netGraph2 reg with
  | error e => exact ⟨e, rfl⟩
  | ok w =>
    exfalso
    obtain ⟨h1, h2, h3⟩ := workloadStack_ok_lookups hres
    simp only [List.mem_cons, List.not_mem_nil, or_false] at hk
    rcases hk with rfl | rfl | rfl
    · rw [hnone] at h1
      simp at h1
    · rw [hnone] at h2
      simp at h2
    · rw [hnone] at h3
      simp at h3

/-- Claim C7 witness: with the `PrivateSubnet-0` entry removed from the
published registry, the workload stack fails. -/
theorem workload_fails_on_missing_key_witness :
    regMissingPriv.lookup "PrivateSubnet-0" = none ∧
    ∃ e, workloadStack netGraph2 regMissingPriv = Except.error e :=
  ⟨by decide,
    workload_fails_on_missing_key regMissingPriv "PrivateSubnet-0"
      (by decide) (by decide)⟩

/-- Claim C8: every subnet in which any of the three services (and hence any
workload) is placed is a private subnet of the deployed network; no service's
placement names a public subnet. -/
theorem workloads_placed_in_private_subnets :
    ∀ svc ∈ svcGraph2.services, ∀ sid ∈ svc.subnetIds,
      (∃ s ∈ netGraph2.subnets, s.subnetId = sid ∧ s.isPublic = false) ∧
      (∀ s ∈ netGraph2.subnets, s.subnetId = sid → s.isPublic = false) := by
  decide

/-- Claim C8 witness: the database service is placed in
`private-subnet-id-0`, which is a private subnet and not a public one. -/
theorem workloads_placed_in_private_subnets_witness :
    (svcGraph2.services.get ⟨0, by decide⟩) ∈ svcGraph2.services ∧
    "private-subnet-id-0" ∈
      (svcGraph2.services.get ⟨0, by decide⟩).subnetIds ∧
    ((∃ s ∈ netGraph2.subnets,
        s.subnetId = "private-subnet-id-0" ∧ s.isPublic = false) ∧
     (∀ s ∈ netGraph2.subnets,
        s.subnetId = "private-subnet-id-0" → s.isPublic = false)) :=
  ⟨by decide, by decide,
    workloads_placed_in_private_subnets
      (svcGraph2.services.get ⟨0, by decide⟩) (by decide)
      "private-subnet-id-0" (by decide)⟩

/-- Claim C9: the workload stack publishes exactly one registry entry, under
the fixed key `ExpenseTrackerServicesNLB`, holding the load balancer's DNS
name, and the broker container's advertised-listener URI embeds that same
address on port 9092. -/
theorem nlb_address_published_and_advertised :
    svcGraph2.ssmParameters =
      [{ parameterName := "ExpenseTrackerServicesNLB",
         stringValue := svcGraph2.nlbDnsName }] ∧
    (svcGraph2.services.get ⟨2, by decide⟩).name = "KafkaService" ∧
    ((svcGraph2.services.get ⟨2, by decide⟩).taskDefinition.containers.get
        ⟨0, by decide⟩).environment.lookup "KAFKA_ADVERTISED_LISTENERS" =
      some ("PLAINTEXT://" ++ svcGraph2.nlbDnsName ++ ":9092") := by
  decide

/-- Claim C10: every replica of the broker service is launched from the
single Kafka task definition, so all three replicas receive the identical
environment; in particular each shares the constant broker id `1` and rack
id `RACK1`. -/
theorem broker_replicas_share_environment :
    ∀ i j : Nat, i < 3 → j < 3 →
      (svcGraph2.services.get ⟨2, by decide⟩).name = "KafkaService" ∧
      (svcGraph2.services.get ⟨2, by decide⟩).desiredCount = 3 ∧
      replicaEnvironment (svcGraph2.services.get ⟨2, by decide⟩) i =
        replicaEnvironment (svcGraph2.services.get ⟨2, by decide⟩) j ∧
      (replicaEnvironment (svcGraph2.services.get ⟨2, by decide⟩) i).lookup
        "KAFKA_BROKER_ID" = some "1" ∧
      (replicaEnvironment (svcGraph2.services.get ⟨2, by decide⟩) i).lookup
        "KAFKA_BROKER_RACK" = some "RACK1" :=
  fun _ _ _ _ => ⟨rfl, rfl, rfl, rfl, rfl⟩

/-- Claim C10 witness: replicas 0 and 2 (both below the desired count 3) of
the broker service share the identical environment, with broker id `1` and
rack id `RACK1`. -/
theorem broker_replicas_share_environment_witness :
    (0 : Nat) < 3 ∧ (2 : Nat) < 3 ∧
    ((svcGraph2.services.get ⟨2, by decide⟩).name = "KafkaService" ∧
     (svcGraph2.services.get ⟨2, by decide⟩).desiredCount = 3 ∧
     replicaEnvironment (svcGraph2.services.get ⟨2, by decide⟩) 0 =
       replicaEnvironment (svcGraph2.services.get ⟨2, by decide⟩) 2 ∧
     (replicaEnvironment (svcGraph2.services.get ⟨2, by decide⟩) 0).lookup
       "KAFKA_BROKER_ID" = some "1" ∧
     (replicaEnvironment (svcGraph2.services.get ⟨2, by decide⟩) 0).lookup
       "KAFKA_BROKER_RACK" = some "RACK1") :=
  ⟨by decide, by decide,
    broker_replicas_share_environment 0 2 (by decide) (by decide)⟩
